import Mathlib

set_option maxHeartbeats 1000000

/-!
Shallow embedding of the DOM-interaction helper module of a Selenium/Cucumber
test harness (`runtime/helpers.js`), together with the pieces of the Selenium
WebDriver client semantics that the helpers rely on (`findElement`,
`findElements`, `driver.wait`, `executeScript`, cookie/storage management).

The remote document is modelled as a list of nodes in document order; selector
matching is modelled extensionally (each node carries the set of selector
strings it matches).  Promised values are modelled by their settled results;
`driver.wait` is modelled over a list of DOM snapshots, one per poll, the
length of the list standing for the number of polls that fit before the
deadline.  The process-wide `DEFAULT_TIMEOUT` global is threaded as an
explicit `defaultTimeout` parameter.
-/

/-- A node of the remote document.  `selectors` is the set of CSS selector
strings this node matches (selector matching is modelled extensionally);
`textContent` is the node's text content (the code's `txtProp` probe always
picks `textContent` in a document that supports it, as modelled here);
`attrs` is the node's attribute list; `beforeContent` / `afterContent` are
the computed `content` CSS property values of its `:before` / `:after`
pseudo-elements. -/
structure DomNode where
  nodeId : Nat
  selectors : List String
  textContent : String
  attrs : List (String × String)
  beforeContent : String
  afterContent : String
deriving DecidableEq, Repr

/-- A remote document: its nodes in document order. -/
abbrev Dom := List DomNode

/-- Errors raised by the WebDriver client that the helpers can surface. -/
inductive JsError where
  | noSuchElement
deriving DecidableEq, Repr

/-- `document.querySelectorAll(q)`: all nodes matching `q`, in document
order. -/
def querySelectorAll (dom : Dom) (q : String) : List DomNode :=
  dom.filter (fun n => q ∈ n.selectors)

/-- `document.querySelector(q)`: the first node matching `q`, or null. -/
def querySelector (dom : Dom) (q : String) : Option DomNode :=
  (querySelectorAll dom q).head?

/-- Selenium `driver.findElement(by.css(q))`: resolves with the first
matching element, rejects with `NoSuchElementError` when `q` matches no
element. -/
def findElement (dom : Dom) (q : String) : Except JsError DomNode :=
  match querySelector dom q with
  | some el => .ok el
  | none => .error .noSuchElement

/-- `el.getAttribute(name)`: the attribute's value, or null (`none`) when the
element has no such attribute. -/
def getAttribute (el : DomNode) (name : String) : Option String :=
  (el.attrs.find? (fun p => p.1 = name)).map Prod.snd

/-- `helpers.getAttributeValue(htmlCssSelector, attributeName)`: finds the
element via `driver.findElement` (rejecting when the selector matches
nothing) and returns `el.getAttribute(attributeName)`. -/
def getAttributeValue (dom : Dom) (htmlCssSelector attributeName : String) :
    Except JsError (Option String) :=
  (findElement dom htmlCssSelector).map (fun el => getAttribute el attributeName)

/-- JavaScript truthiness of an optional numeric argument: `undefined` and
`0` are falsy. -/
def numTruthy : Option Nat → Bool
  | some n => n ≠ 0
  | none => false

/-- JavaScript string interpolation of an optional numeric argument:
`undefined` prints as "undefined". -/
def jsNumToString : Option Nat → String
  | some n => toString n
  | none => "undefined"

/-- JavaScript truthiness of an optional string argument: `undefined` and
the empty string are falsy. -/
def jsStrTruthy : Option String → Bool
  | some s => s ≠ ""
  | none => false

/-- Outcome of a `driver.wait(condition, timeout, message)` call.
`resolved polls` means the condition returned true on poll number `polls`;
`errored polls e` means the condition's promise rejected with `e` on poll
number `polls` (selenium-webdriver propagates a condition rejection as the
rejection of the whole wait); `timedOut message` means every poll before the
deadline returned false. -/
inductive WaitOutcome where
  | resolved (polls : Nat)
  | timedOut (message : String)
  | errored (polls : Nat) (e : JsError)
deriving DecidableEq, Repr

/-- `driver.wait(check, timeout, message)` over a list of DOM snapshots, one
snapshot per poll; exhausting the list stands for the deadline elapsing. -/
def driverWait (check : Dom → Except JsError Bool) :
    List Dom → String → WaitOutcome
  | [], message => .timedOut message
  | d :: rest, message =>
    match check d with
    | .error e => .errored 1 e
    | .ok true => .resolved 1
    | .ok false =>
      match driverWait check rest message with
      | .resolved n => .resolved (n + 1)
      | .errored n e => .errored (n + 1) e
      | .timedOut m => .timedOut m

/-- The observable shape of one of the attribute-waiter calls: the timeout
value passed to `driver.wait` (the bound that actually limits the wait), the
timeout message passed alongside it, and the wait's outcome on the given
snapshots. -/
structure WaitCall where
  timeout : Nat
  message : String
  outcome : WaitOutcome
deriving DecidableEq, Repr

/-- `helpers.waitUntilAttributeEquals(elementSelector, attributeName,
attributeValue, waitInMilliseconds)`: resolves the timeout as
`waitInMilliseconds || DEFAULT_TIMEOUT`, builds the timeout message by
interpolating the raw `waitInMilliseconds` argument, and polls
`getAttributeValue(...) === attributeValue`. -/
def waitUntilAttributeEquals (elementSelector attributeName attributeValue : String)
    (waitInMilliseconds : Option Nat) (defaultTimeout : Nat)
    (snapshots : List Dom) : WaitCall :=
  let timeout := if numTruthy waitInMilliseconds then waitInMilliseconds.getD 0
    else defaultTimeout
  let timeoutMessage := attributeName ++ " does not equal " ++ attributeValue
    ++ " after " ++ jsNumToString waitInMilliseconds ++ " milliseconds"
  { timeout := timeout
    message := timeoutMessage
    outcome := driverWait
      (fun d => (getAttributeValue d elementSelector attributeName).map
        (fun value => value = some attributeValue))
      snapshots timeoutMessage }

/-- `helpers.waitUntilAttributeExists(elementSelector, attributeName,
waitInMilliseconds)`: polls `getAttributeValue(...) !== null`. -/
def waitUntilAttributeExists (elementSelector attributeName : String)
    (waitInMilliseconds : Option Nat) (defaultTimeout : Nat)
    (snapshots : List Dom) : WaitCall :=
  let timeout := if numTruthy waitInMilliseconds then waitInMilliseconds.getD 0
    else defaultTimeout
  let timeoutMessage := attributeName ++ " does not exists after "
    ++ jsNumToString waitInMilliseconds ++ " milliseconds"
  { timeout := timeout
    message := timeoutMessage
    outcome := driverWait
      (fun d => (getAttributeValue d elementSelector attributeName).map
        (fun value => value ≠ none))
      snapshots timeoutMessage }

/-- `helpers.waitUntilAttributeDoesNotExists(elementSelector, attributeName,
waitInMilliseconds)`: polls `getAttributeValue(...) === null`. -/
def waitUntilAttributeDoesNotExists (elementSelector attributeName : String)
    (waitInMilliseconds : Option Nat) (defaultTimeout : Nat)
    (snapshots : List Dom) : WaitCall :=
  let timeout := if numTruthy waitInMilliseconds then waitInMilliseconds.getD 0
    else defaultTimeout
  let timeoutMessage := attributeName ++ " still exists after "
    ++ jsNumToString waitInMilliseconds ++ " milliseconds"
  { timeout := timeout
    message := timeoutMessage
    outcome := driverWait
      (fun d => (getAttributeValue d elementSelector attributeName).map
        (fun value => value = none))
      snapshots timeoutMessage }

/-- The observable shape of a `helpers.loadPage(url, waitInSeconds)` call:
the url passed to `driver.get`, the locator of the subsequent
`driver.wait(until.elementLocated(...))`, and the timeout bound passed to
that wait. -/
structure LoadPageCall where
  navigatedUrl : String
  waitLocator : String
  timeout : Nat
deriving DecidableEq, Repr

/-- `helpers.loadPage(url, waitInSeconds)`: computes
`timeout = waitInSeconds ? waitInSeconds * 1000 : DEFAULT_TIMEOUT`, navigates
to `url` with `driver.get`, then waits for the `body` element with that
timeout. -/
def loadPage (url : String) (waitInSeconds : Option Nat)
    (defaultTimeout : Nat) : LoadPageCall :=
  { navigatedUrl := url
    waitLocator := "body"
    timeout := if numTruthy waitInSeconds then waitInSeconds.getD 0 * 1000
      else defaultTimeout }

/-- The in-document script `findElementsContainingText(query, content)` of
`helpers.getElementsContainingText`: collects, in document order, the nodes
matching `query` whose text content, trimmed, equals `content` trimmed. -/
def findElementsContainingText (dom : Dom) (query content : String) :
    List DomNode :=
  (querySelectorAll dom query).filter
    (fun n => n.textContent.trim = content.trim)

/-- `helpers.getElementsContainingText(cssSelector, textToMatch)`: the list
of elements the returned promise resolves with —
`driver.findElements(by.js(findElementsContainingText, cssSelector,
textToMatch))`. -/
def getElementsContainingText (dom : Dom) (cssSelector textToMatch : String) :
    List DomNode :=
  findElementsContainingText dom cssSelector textToMatch

/-- A JavaScript value, as far as the helpers observe one: `undefined`, an
element handle, an array of element handles, or a (pending) promise whose
eventual settled value is a list of element handles. -/
inductive JsValue where
  | jsUndefined
  | elemHandle (n : DomNode)
  | arrayOfElems (elems : List DomNode)
  | promiseOfElems (elems : List DomNode)
deriving DecidableEq, Repr

/-- JavaScript indexed property access `v[i]`.  An array yields its `i`-th
element (or `undefined` past the end); a Promise object has no numeric index
properties — whatever its eventual value — so indexing it yields
`undefined`; so does indexing `undefined` or an element handle (modelling
only the cases the helpers can reach without raising). -/
def jsIndex : JsValue → Nat → JsValue
  | .arrayOfElems es, i =>
    match es.get? i with
    | some e => .elemHandle e
    | none => .jsUndefined
  | _, _ => .jsUndefined

/-- The promise returned by `helpers.getElementsContainingText`, as the JS
object it is before being awaited. -/
def getElementsContainingTextPromise (dom : Dom)
    (cssSelector textToMatch : String) : JsValue :=
  .promiseOfElems (getElementsContainingText dom cssSelector textToMatch)

/-- `helpers.getFirstElementContainingText(cssSelector, textToMatch)`:
`let elements = helpers.getElementsContainingText(cssSelector, textToMatch);
return elements[0];` — note the promise is not awaited before indexing. -/
def getFirstElementContainingText (dom : Dom)
    (cssSelector textToMatch : String) : JsValue :=
  jsIndex (getElementsContainingTextPromise dom cssSelector textToMatch) 0

/-- The in-document script `clickElementInDom(query, content)` of
`helpers.clickHiddenElement`: iterates the nodes matching `query` in
document order; when `content` is truthy it clicks exactly those whose
(untrimmed) text content strictly equals `content`, otherwise it clicks
every one.  The result is the list of nodes clicked, in the order they were
clicked. -/
def clickElementInDom (dom : Dom) (query : String) (content : Option String) :
    List DomNode :=
  let elements := querySelectorAll dom query
  if jsStrTruthy content then
    elements.filter (fun n => some n.textContent = content)
  else
    elements

/-- `helpers.clickHiddenElement(cssSelector, textToMatch)`: executes
`clickElementInDom` in the remote document via
`driver.findElements(by.js(...))`; the list of clicked nodes is the
observable effect. -/
def clickHiddenElement (dom : Dom) (cssSelector : String)
    (textToMatch : Option String) : List DomNode :=
  clickElementInDom dom cssSelector textToMatch

/-- The in-document script `getBeforeContentValue(qs)` of
`helpers.getPseudoElementBeforeValue`: `var el = document.querySelector(qs);
var styles = el ? window.getComputedStyle(el, ':before') : null;
return styles ? styles.getPropertyValue('content') : '';` — a computed-style
object is always truthy, so an existing element yields its `:before`
`content` value and a missing element yields the empty string. -/
def getBeforeContentValue (dom : Dom) (qs : String) : String :=
  let styles : Option String :=
    (querySelector dom qs).map (fun el => el.beforeContent)
  match styles with
  | some content => content
  | none => ""

/-- The in-document script `getAfterContentValue(qs)` of
`helpers.getPseudoElementAfterValue`, analogous for `:after`. -/
def getAfterContentValue (dom : Dom) (qs : String) : String :=
  let styles : Option String :=
    (querySelector dom qs).map (fun el => el.afterContent)
  match styles with
  | some content => content
  | none => ""

/-- `helpers.getPseudoElementBeforeValue(cssSelector)` =
`driver.executeScript(getBeforeContentValue, cssSelector)`. -/
def getPseudoElementBeforeValue (dom : Dom) (cssSelector : String) : String :=
  getBeforeContentValue dom cssSelector

/-- `helpers.getPseudoElementAfterValue(cssSelector)` =
`driver.executeScript(getAfterContentValue, cssSelector)`. -/
def getPseudoElementAfterValue (dom : Dom) (cssSelector : String) : String :=
  getAfterContentValue dom cssSelector

/-- The mutable browser-session state touched by the session-hygiene
helpers. -/
structure SessionState where
  cookies : List (String × String)
  localStorage : List (String × String)
  sessionStorage : List (String × String)
deriving DecidableEq, Repr

/-- The remote commands the session-hygiene helpers issue, in order. -/
inductive SessionOp where
  | deleteAllCookies
  | clearLocalAndSessionStorage
deriving DecidableEq, Repr

/-- `helpers.clearCookies()`: awaits
`driver.manage().deleteAllCookies()`. Returns the resulting state and the
command trace. -/
def clearCookies (s : SessionState) : SessionState × List SessionOp :=
  ({ s with cookies := [] }, [.deleteAllCookies])

/-- `helpers.clearStorages()`: awaits `driver.executeScript(
'window.localStorage.clear(); window.sessionStorage.clear();')`. -/
def clearStorages (s : SessionState) : SessionState × List SessionOp :=
  ({ s with localStorage := [], sessionStorage := [] },
    [.clearLocalAndSessionStorage])

/-- `helpers.clearCookiesAndStorages()`: awaits `helpers.clearCookies()`,
then awaits `helpers.clearStorages()`; the traces concatenate in that
order. -/
def clearCookiesAndStorages (s : SessionState) :
    SessionState × List SessionOp :=
  let r1 := clearCookies s
  let r2 := clearStorages r1.1
  (r2.1, r1.2 ++ r2.2)

/-! Helper lemmas shared by several claims. -/

theorem jsStrTruthy_some_iff (s : String) : jsStrTruthy (some s) = true ↔ s ≠ "" := by
  simp [jsStrTruthy]

theorem querySelector_eq_none_of_all_empty (dom : Dom) (q : String)
    (h : querySelectorAll dom q = []) : querySelector dom q = none := by
  simp [querySelector, h]

/-! Claims. -/

/-- C1, counterexample: on a document in which the selector `html` matches no
element, `waitUntilAttributeDoesNotExists` does not resolve within one poll;
its wait rejects on the first poll with the `NoSuchElementError` raised by
`getAttributeValue`'s `driver.findElement` call. -/
theorem waitUntilAttributeDoesNotExists_noElement_counterexample :
    (waitUntilAttributeDoesNotExists "html" "data-busy" none 10000 [[]]).outcome =
      WaitOutcome.errored 1 JsError.noSuchElement ∧
    (waitUntilAttributeDoesNotExists "html" "data-busy" none 10000 [[]]).outcome ≠
      WaitOutcome.resolved 1 := by
  constructor
  · rfl
  · decide

/-- C1 (amended): if the selector matches no element, the attribute lookup
used by the attribute waiters does not behave as if the attribute value were
null: `getAttributeValue` rejects with `NoSuchElementError`, and
`waitUntilAttributeDoesNotExists` therefore rejects with that error on the
first poll instead of resolving, so "element not present" and "element
present but attribute absent" are distinguishable. -/
theorem waitUntilAttributeDoesNotExists_noElement_rejects (dom : Dom)
    (rest : List Dom) (elementSelector attributeName : String)
    (waitInMilliseconds : Option Nat) (defaultTimeout : Nat)
    (h : querySelectorAll dom elementSelector = []) :
    getAttributeValue dom elementSelector attributeName =
      Except.error JsError.noSuchElement ∧
    (waitUntilAttributeDoesNotExists elementSelector attributeName
        waitInMilliseconds defaultTimeout (dom :: rest)).outcome =
      WaitOutcome.errored 1 JsError.noSuchElement := by
  have hq : querySelector dom elementSelector = none :=
    querySelector_eq_none_of_all_empty dom elementSelector h
  have hv : getAttributeValue dom elementSelector attributeName =
      Except.error JsError.noSuchElement := by
    simp [getAttributeValue, findElement, hq, Except.map]
  refine ⟨hv, ?_⟩
  simp [waitUntilAttributeDoesNotExists, driverWait, hv, Except.map]

/-- C1, witness for `waitUntilAttributeDoesNotExists_noElement_rejects`. -/
theorem waitUntilAttributeDoesNotExists_noElement_rejects_witness :
    querySelectorAll [] "html" = [] ∧
    (getAttributeValue [] "html" "data-busy" =
        Except.error JsError.noSuchElement ∧
      (waitUntilAttributeDoesNotExists "html" "data-busy" (some 5000) 10000
          [[]]).outcome = WaitOutcome.errored 1 JsError.noSuchElement) :=
  ⟨rfl, waitUntilAttributeDoesNotExists_noElement_rejects [] [] "html"
    "data-busy" (some 5000) 10000 rfl⟩

/-- C2, counterexample: `loadPage('http://www.google.com', 5)` waits for the
`body` element with a bound of 5000 milliseconds, not 5 milliseconds — the
explicitly supplied value is interpreted as seconds and multiplied by
1000. -/
theorem loadPage_timeout_counterexample :
    (loadPage "http://www.google.com" (some 5) 10000).timeout = 5000 ∧
    (5000 : Nat) ≠ 5 := by
  constructor
  · rfl
  · decide

/-- C2 (amended): for every url and explicitly supplied truthy timeout value
`t`, `loadPage(url, t)` navigates to the url and waits for the root document
marker element (`body`) with a bound of `t * 1000` milliseconds (`t` is a
count of seconds); when `t` is omitted (`none`) or falsy (`0`), the
process-wide default timeout is the bound instead. -/
theorem loadPage_spec (url : String) (t : Nat) (defaultTimeout : Nat)
    (h : t ≠ 0) :
    (loadPage url (some t) defaultTimeout).navigatedUrl = url ∧
    (loadPage url (some t) defaultTimeout).waitLocator = "body" ∧
    (loadPage url (some t) defaultTimeout).timeout = t * 1000 ∧
    (loadPage url none defaultTimeout).timeout = defaultTimeout ∧
    (loadPage url (some 0) defaultTimeout).timeout = defaultTimeout := by
  refine ⟨rfl, rfl, ?_, rfl, rfl⟩
  simp [loadPage, numTruthy, h]

/-- C2, witness for `loadPage_spec`. -/
theorem loadPage_spec_witness :
    (5 : Nat) ≠ 0 ∧
    ((loadPage "http://www.google.com" (some 5) 10000).navigatedUrl =
        "http://www.google.com" ∧
      (loadPage "http://www.google.com" (some 5) 10000).waitLocator = "body" ∧
      (loadPage "http://www.google.com" (some 5) 10000).timeout = 5 * 1000 ∧
      (loadPage "http://www.google.com" none 10000).timeout = 10000 ∧
      (loadPage "http://www.google.com" (some 0) 10000).timeout = 10000) :=
  ⟨by decide, loadPage_spec "http://www.google.com" 5 10000 (by decide)⟩

/-- C3 (code bug): with `waitInMilliseconds` omitted, the wait passed to the
driver is bounded by the default timeout (10000 here), the condition never
becoming true makes it reject with the timeout message, but that message
interpolates the raw `undefined` argument — it reads "... after undefined
milliseconds" and does not contain the value 10000 that actually bounded the
wait. -/
theorem waitUntilAttributeEquals_message_bug :
    (waitUntilAttributeEquals "html" "data-busy" "false" none 10000
        [[⟨1, ["html"], "", [("data-busy", "true")], "", ""⟩]]).timeout =
      10000 ∧
    (waitUntilAttributeEquals "html" "data-busy" "false" none 10000
        [[⟨1, ["html"], "", [("data-busy", "true")], "", ""⟩]]).message =
      "data-busy does not equal false after undefined milliseconds" ∧
    (waitUntilAttributeEquals "html" "data-busy" "false" none 10000
        [[⟨1, ["html"], "", [("data-busy", "true")], "", ""⟩]]).outcome =
      WaitOutcome.timedOut
        "data-busy does not equal false after undefined milliseconds" ∧
    ¬ (("10000".data) <:+:
      ("data-busy does not equal false after undefined milliseconds".data)) := by
  refine ⟨rfl, rfl, ?_, by decide⟩
  decide

/-- C4 (confirmed): `getFirstElementContainingText` indexes position 0 of
the promise returned by `getElementsContainingText` without awaiting it, so
for every document, selector and text it resolves to `undefined`, never to
an element handle. -/
theorem getFirstElementContainingText_undefined (dom : Dom)
    (cssSelector textToMatch : String) :
    getFirstElementContainingText dom cssSelector textToMatch =
      JsValue.jsUndefined := rfl

/-- C5, counterexample: `textToMatch` equal to the empty string is a
provided value, yet `clickHiddenElement` clicks a node whose text content is
"Hi-Vis Jacket" — a node whose text differs from the provided
`textToMatch` receives a click, because the script's `if (content)` treats
the empty string as an absent filter. -/
theorem clickHiddenElement_emptyText_counterexample :
    clickHiddenElement [⟨1, ["main .pitem a"], "Hi-Vis Jacket", [], "", ""⟩]
        "main .pitem a" (some "") =
      [⟨1, ["main .pitem a"], "Hi-Vis Jacket", [], "", ""⟩] ∧
    ("Hi-Vis Jacket" : String) ≠ "" := by
  constructor
  · decide
  · decide

/-- C5 (amended): for every selector and provided non-empty `textToMatch`,
`clickHiddenElement` clicks exactly those nodes matching the selector whose
exact, untrimmed text content equals `textToMatch`, in document order,
regardless of visibility; nodes matching the selector but with different
text receive no click.  (With `textToMatch` an empty string — provided but
falsy — the filter is disabled instead; see the counterexample and C10.) -/
theorem clickHiddenElement_nonEmptyText_spec (dom : Dom)
    (cssSelector s : String) (n : DomNode) (h : s ≠ "") :
    (n ∈ clickHiddenElement dom cssSelector (some s) ↔
      n ∈ dom ∧ cssSelector ∈ n.selectors ∧ n.textContent = s) ∧
    (clickHiddenElement dom cssSelector (some s)).Sublist dom := by
  constructor
  · simp only [clickHiddenElement, clickElementInDom,
      if_pos ((jsStrTruthy_some_iff s).mpr h), querySelectorAll]
    simp [List.mem_filter, and_assoc]
    exact fun _ => and_comm
  · simp only [clickHiddenElement, clickElementInDom,
      if_pos ((jsStrTruthy_some_iff s).mpr h)]
    exact (List.filter_sublist _).trans (List.filter_sublist _)

/-- C5, witness for `clickHiddenElement_nonEmptyText_spec`. -/
theorem clickHiddenElement_nonEmptyText_spec_witness :
    ("Safety Boots" : String) ≠ "" ∧
    (((⟨2, ["nav a"], "Safety Boots", [], "", ""⟩ : DomNode) ∈
        clickHiddenElement
          [⟨1, ["nav a"], "Workwear", [], "", ""⟩,
            ⟨2, ["nav a"], "Safety Boots", [], "", ""⟩]
          "nav a" (some "Safety Boots") ↔
      (⟨2, ["nav a"], "Safety Boots", [], "", ""⟩ : DomNode) ∈
          [⟨1, ["nav a"], "Workwear", [], "", ""⟩,
            ⟨2, ["nav a"], "Safety Boots", [], "", ""⟩] ∧
        "nav a" ∈ (⟨2, ["nav a"], "Safety Boots", [], "", ""⟩ : DomNode).selectors ∧
        (⟨2, ["nav a"], "Safety Boots", [], "", ""⟩ : DomNode).textContent =
          "Safety Boots") ∧
    (clickHiddenElement
        [⟨1, ["nav a"], "Workwear", [], "", ""⟩,
          ⟨2, ["nav a"], "Safety Boots", [], "", ""⟩]
        "nav a" (some "Safety Boots")).Sublist
      [⟨1, ["nav a"], "Workwear", [], "", ""⟩,
        ⟨2, ["nav a"], "Safety Boots", [], "", ""⟩]) :=
  ⟨by decide,
    clickHiddenElement_nonEmptyText_spec
      [⟨1, ["nav a"], "Workwear", [], "", ""⟩,
        ⟨2, ["nav a"], "Safety Boots", [], "", ""⟩]
      "nav a" "Safety Boots" ⟨2, ["nav a"], "Safety Boots", [], "", ""⟩
      (by decide)⟩

/-- C6 (confirmed): `getElementsContainingText` resolves with exactly the
selector-matched nodes whose text content, trimmed of leading and trailing
whitespace, equals the trimmed `textToMatch` — both sides of the comparison
are trimmed. -/
theorem getElementsContainingText_spec (dom : Dom)
    (cssSelector textToMatch : String) (n : DomNode) :
    n ∈ getElementsContainingText dom cssSelector textToMatch ↔
      n ∈ dom ∧ cssSelector ∈ n.selectors ∧
        n.textContent.trim = textToMatch.trim := by
  simp only [getElementsContainingText, findElementsContainingText,
    querySelectorAll]
  simp [List.mem_filter, and_assoc]
  exact fun _ => and_comm

/-- C7 (confirmed): when the base element does not exist in the document,
both pseudo-element content queries return the empty string — not null and
not an exception (the embedding is total: no error value exists in the
return type). -/
theorem getPseudoElementValues_absent_empty (dom : Dom) (cssSelector : String)
    (h : querySelector dom cssSelector = none) :
    getPseudoElementBeforeValue dom cssSelector = "" ∧
    getPseudoElementAfterValue dom cssSelector = "" := by
  simp [getPseudoElementBeforeValue, getPseudoElementAfterValue,
    getBeforeContentValue, getAfterContentValue, h]

/-- C7, witness for `getPseudoElementValues_absent_empty`. -/
theorem getPseudoElementValues_absent_empty_witness :
    querySelector [⟨1, ["body"], "", [], "", ""⟩] "body header" = none ∧
    (getPseudoElementBeforeValue [⟨1, ["body"], "", [], "", ""⟩]
        "body header" = "" ∧
      getPseudoElementAfterValue [⟨1, ["body"], "", [], "", ""⟩]
        "body header" = "") :=
  ⟨by decide, getPseudoElementValues_absent_empty
    [⟨1, ["body"], "", [], "", ""⟩] "body header" (by decide)⟩

/-- C8 (confirmed): when the selector matches zero nodes, `clickHiddenElement`
clicks nothing and resolves normally — zero matches is not an error (the
embedding is total over every document and selector). -/
theorem clickHiddenElement_zeroMatches_noClicks (dom : Dom)
    (cssSelector : String) (textToMatch : Option String)
    (h : querySelectorAll dom cssSelector = []) :
    clickHiddenElement dom cssSelector textToMatch = [] := by
  simp [clickHiddenElement, clickElementInDom, h]

/-- C8, witness for `clickHiddenElement_zeroMatches_noClicks`. -/
theorem clickHiddenElement_zeroMatches_noClicks_witness :
    querySelectorAll [⟨1, ["body"], "", [], "", ""⟩] "main .pitem a" = [] ∧
    clickHiddenElement [⟨1, ["body"], "", [], "", ""⟩] "main .pitem a"
      (some "Safety Boots") = [] :=
  ⟨by decide, clickHiddenElement_zeroMatches_noClicks
    [⟨1, ["body"], "", [], "", ""⟩] "main .pitem a" (some "Safety Boots")
    (by decide)⟩

/-- C9 (confirmed): `clearCookiesAndStorages` performs both clearing
operations unconditionally and sequentially, the cookie deletion completing
before the storage clearing begins: for every starting session state the
command trace is exactly `[deleteAllCookies, clearLocalAndSessionStorage]`
and the final state has empty cookies, local storage and session storage. -/
theorem clearCookiesAndStorages_spec (s : SessionState) :
    clearCookiesAndStorages s =
      ({ cookies := [], localStorage := [], sessionStorage := [] },
        [SessionOp.deleteAllCookies,
          SessionOp.clearLocalAndSessionStorage]) := rfl

/-- C10 (confirmed): when `textToMatch` is the empty string (or any falsy
value, such as an omitted argument), the in-document script treats the
filter as absent and clicks every node matching the selector, rather than
clicking only nodes whose text content is empty. -/
theorem clickHiddenElement_falsyText_clicksAll (dom : Dom)
    (cssSelector : String) (textToMatch : Option String)
    (h : jsStrTruthy textToMatch = false) :
    clickHiddenElement dom cssSelector textToMatch =
      querySelectorAll dom cssSelector := by
  simp [clickHiddenElement, clickElementInDom, h]

/-- C10, witness for `clickHiddenElement_falsyText_clicksAll`: with the
empty string, even a node with non-empty text content is clicked. -/
theorem clickHiddenElement_falsyText_clicksAll_witness :
    jsStrTruthy (some "") = false ∧
    clickHiddenElement [⟨1, ["nav a"], "Workwear", [], "", ""⟩] "nav a"
        (some "") =
      querySelectorAll [⟨1, ["nav a"], "Workwear", [], "", ""⟩] "nav a" :=
  ⟨by decide, clickHiddenElement_falsyText_clicksAll
    [⟨1, ["nav a"], "Workwear", [], "", ""⟩] "nav a" (some "") (by decide)⟩
